import Mathlib

/-!
Verification of the Nova Sonic bridging runtime (src/runtime/index.py).

The development shallowly embeds the `NovaSonicBridge` class: its mutable
attributes become a Lean structure, each method becomes a function from the
old state to the new state together with the observable effects performed on
the bidirectional stream (successful event sends, the stream close, the
cancellation of the draining task) and a flag recording whether a Python
exception propagated to the caller.  The environment's nondeterminism
(whether the stream-open call and each individual stream send succeed) is
passed in as explicit boolean/index parameters.  Time (`asyncio.sleep`
settle pauses) is not modelled; the order of effects is.
-/

/-! ## Base64 (Python `base64.b64encode` / `base64.b64decode`, standard alphabet)

Bytes are modelled as natural numbers below 256. -/

def b64Chars : List Char :=
  ['A', 'B', 'C', 'D', 'E', 'F', 'G', 'H', 'I', 'J', 'K', 'L', 'M',
   'N', 'O', 'P', 'Q', 'R', 'S', 'T', 'U', 'V', 'W', 'X', 'Y', 'Z',
   'a', 'b', 'c', 'd', 'e', 'f', 'g', 'h', 'i', 'j', 'k', 'l', 'm',
   'n', 'o', 'p', 'q', 'r', 's', 't', 'u', 'v', 'w', 'x', 'y', 'z',
   '0', '1', '2', '3', '4', '5', '6', '7', '8', '9', '+', '/']

def b64Char (n : Nat) : Char := b64Chars.getD n 'A'

def b64CharVal (c : Char) : Option Nat := b64Chars.findIdx? (fun x => x == c)

def b64encode : List Nat → String
  | [] => ""
  | [a] =>
      String.mk [b64Char (a / 4), b64Char (a % 4 * 16), '=', '=']
  | [a, b] =>
      String.mk [b64Char (a / 4), b64Char (a % 4 * 16 + b / 16), b64Char (b % 16 * 4), '=']
  | a :: b :: c :: rest =>
      String.mk [b64Char (a / 4), b64Char (a % 4 * 16 + b / 16),
                 b64Char (b % 16 * 4 + c / 64), b64Char (c % 64)]
        ++ b64encode rest

def b64decodeChars : List Char → Option (List Nat)
  | [] => some []
  | a :: b :: c :: d :: rest =>
    match b64CharVal a, b64CharVal b with
    | some va, some vb =>
      if c = '=' ∧ d = '=' ∧ rest = [] then
        some [va * 4 + vb / 16]
      else
        match b64CharVal c with
        | some vc =>
          if d = '=' ∧ rest = [] then
            some [va * 4 + vb / 16, vb % 16 * 16 + vc / 4]
          else
            match b64CharVal d, b64decodeChars rest with
            | some vd, some tl =>
                some ((va * 4 + vb / 16) :: (vb % 16 * 16 + vc / 4) :: (vc % 4 * 64 + vd) :: tl)
            | _, _ => none
        | none => none
    | _, _ => none
  | _ => none

def b64decode (s : String) : Option (List Nat) := b64decodeChars s.data

/-! ## Module-level configuration constants (index.py lines 23-26)

Each is `os.getenv` with a default; the embedding fixes the defaults, which
is the behaviour with an empty environment. -/

def MODEL_ID : String := "amazon.nova-sonic-v1:0"

def REGION : String := "us-east-1"

def VOICE_ID : String := "tiffany"

def SYSTEM_PROMPT : String :=
  "You are a friendly phone assistant. Keep responses short and conversational."

/-! ## Outbound events (the JSON objects built in start/send_audio/stop) -/

structure AudioOutputConfiguration where
  mediaType : String
  sampleRateHertz : Nat
  sampleSizeBits : Nat
  channelCount : Nat
  voiceId : String
  encoding : String
  audioType : String
  deriving DecidableEq

structure AudioInputConfiguration where
  mediaType : String
  sampleRateHertz : Nat
  sampleSizeBits : Nat
  channelCount : Nat
  audioType : String
  encoding : String
  deriving DecidableEq

structure ToolSpec where
  name : String
  description : String
  inputSchemaJson : String
  deriving DecidableEq

inductive ContentConfig where
  | textInput (mediaType : String)
  | audioInput (cfg : AudioInputConfiguration)
  deriving DecidableEq

/-- One outbound frame: a single-key `event` JSON object, as constructed in
index.py.  Float literals of the source (topP 0.9, temperature 0.7) are
carried as the rationals they denote; no arithmetic is performed on them. -/
inductive OutEvent where
  | sessionStart (maxTokens : Nat) (topP temperature : ℚ)
  | promptStart (promptName : String) (textOutputMediaType : String)
      (audioOutputConfiguration : AudioOutputConfiguration)
      (toolUseOutputMediaType : String) (tools : List ToolSpec)
  | contentStart (promptName : String) (contentName : String) (type : String)
      (interactive : Bool) (role : String) (cfg : ContentConfig)
  | textInput (promptName : String) (contentName : String) (content : String)
  | contentEnd (promptName : String) (contentName : String)
  | audioInput (promptName : String) (contentName : String) (content : String)
  | promptEnd (promptName : String)
  | sessionEnd
  deriving DecidableEq

/-- Observable effects of the bridge on its owned resources: a successful
send of one framed event on the stream (index.py line 114), the close of the
outbound half of the stream (line 341), the cancellation of the draining
task (line 346). -/
inductive Effect where
  | send (e : OutEvent)
  | closeStream
  | cancelTask
  deriving DecidableEq

def isSendEffect : Effect → Bool
  | Effect.send _ => true
  | _ => false

/-! ## The bridge state (NovaSonicBridge.__init__, index.py lines 92-106) -/

/-- Mutable attributes of a `NovaSonicBridge` instance.  `streamOpen` models
`self.stream is not None` (the handle itself is opaque); `response_task` is
`none` when no draining task was spawned and `some done` otherwise, where
`done` models `task.done()`.  The three identifier strings are the
`uuid.uuid4()` values generated in `__init__`. -/
structure NovaSonicBridge where
  streamOpen : Bool
  is_active : Bool
  prompt_name : String
  content_name : String
  audio_content_name : String
  audio_chunks_sent : Nat
  response_task : Option Bool
  deriving DecidableEq

/-- The state produced by `__init__` for given freshly drawn identifiers:
`self.stream = None`, `self.is_active = False`, counter zero, no task. -/
def NovaSonicBridge.init (p c a : String) : NovaSonicBridge :=
  { streamOpen := false
    is_active := false
    prompt_name := p
    content_name := c
    audio_content_name := a
    audio_chunks_sent := 0
    response_task := none }

/-- Result of running one method: the state after it returns (or after the
exception escapes — in Python the mutations performed before the raise
persist), the stream-level effects in order, and whether an exception
propagated to the caller. -/
structure MResult where
  st : NovaSonicBridge
  trace : List Effect
  raised : Bool
  deriving DecidableEq

/-! ## _send (index.py lines 108-118)

`ok` is the environment's verdict on the underlying
`stream.input_stream.send` call: `false` means that await raises.  On
failure `_send` logs, sets `is_active = False` and re-raises; when the guard
`self.stream and self.is_active` is false it does nothing. -/

def NovaSonicBridge._send (ok : Bool) (e : OutEvent) (b : NovaSonicBridge) : MResult :=
  if b.streamOpen && b.is_active then
    if ok then ⟨b, [Effect.send e], false⟩
    else ⟨{ b with is_active := false }, [], true⟩
  else ⟨b, [], false⟩

/-! ## start (index.py lines 120-243) -/

def getDateTool : ToolSpec :=
  { name := "getDateTool"
    description := "get information about the current day"
    inputSchemaJson := "\x7b\n  \"type\": \"object\",\n  \"properties\": \x7b\x7d,\n  \"required\": []\n\x7d" }

def novaAudioOutputConfiguration : AudioOutputConfiguration :=
  { mediaType := "audio/lpcm"
    sampleRateHertz := 16000
    sampleSizeBits := 16
    channelCount := 1
    voiceId := VOICE_ID
    encoding := "base64"
    audioType := "SPEECH" }

def novaAudioInputConfiguration : AudioInputConfiguration :=
  { mediaType := "audio/lpcm"
    sampleRateHertz := 16000
    sampleSizeBits := 16
    channelCount := 1
    audioType := "SPEECH"
    encoding := "base64" }

/-- The six handshake events of `start`, in source order (index.py lines
132-237), built from the session's own identifier fields. -/
def handshakeEvents (b : NovaSonicBridge) : List OutEvent :=
  [ OutEvent.sessionStart 1024 (9 / 10) (7 / 10),
    OutEvent.promptStart b.prompt_name "text/plain" novaAudioOutputConfiguration
      "application/json" [getDateTool],
    OutEvent.contentStart b.prompt_name b.content_name "TEXT" false "SYSTEM"
      (ContentConfig.textInput "text/plain"),
    OutEvent.textInput b.prompt_name b.content_name SYSTEM_PROMPT,
    OutEvent.contentEnd b.prompt_name b.content_name,
    OutEvent.contentStart b.prompt_name b.audio_content_name "AUDIO" true "USER"
      (ContentConfig.audioInput novaAudioInputConfiguration) ]

/-- Sequential `_send` calls of the handshake.  `failAt` is the environment:
`some i` means the i-th send attempt (0-based) raises inside the SDK.  The
first raised exception aborts the remainder, as in Python. -/
def sendSeq (failAt : Option Nat) : Nat → List OutEvent → NovaSonicBridge → MResult
  | _, [], b => ⟨b, [], false⟩
  | i, e :: es, b =>
    let r := NovaSonicBridge._send (decide (failAt ≠ some i)) e b
    if r.raised then r
    else
      let r2 := sendSeq failAt (i + 1) es r.st
      ⟨r2.st, r.trace ++ r2.trace, r2.raised⟩

/-- `start(send_audio_callback)`.  `openOk` is whether
`invoke_model_with_bidirectional_stream` succeeds; if it raises, the `except`
block sets `is_active = False` and re-raises before any handshake event is
attempted.  On success the stream handle is stored, `is_active = True`, the
draining task is spawned (`response_task` becomes a live, not-done task) and
the six handshake events are sent in order; a failure in any of them is
caught at line 240, marks the session inactive and re-raises. -/
def NovaSonicBridge.start (openOk : Bool) (failAt : Option Nat) (b : NovaSonicBridge) : MResult :=
  if openOk then
    let b1 := { b with streamOpen := true, is_active := true, response_task := some false }
    let r := sendSeq failAt 0 (handshakeEvents b1) b1
    if r.raised then ⟨{ r.st with is_active := false }, r.trace, true⟩ else r
  else
    ⟨{ b with is_active := false }, [], true⟩

/-! ## send_audio (index.py lines 245-259) -/

def NovaSonicBridge.send_audio (ok : Bool) (pcm_bytes : List Nat) (b : NovaSonicBridge) : MResult :=
  if !b.is_active then ⟨b, [], false⟩
  else
    let b1 := { b with audio_chunks_sent := b.audio_chunks_sent + 1 }
    NovaSonicBridge._send ok
      (OutEvent.audioInput b1.prompt_name b1.audio_content_name (b64encode pcm_bytes)) b1

/-! ## stop (index.py lines 309-350) -/

/-- `stop()`.  `ok1 ok2 ok3` are the environment verdicts for the three
`_send` attempts (unreachable sends are unaffected by them), `closeOk` for
`stream.input_stream.close()`.  Returns immediately when already inactive;
otherwise sets `is_active = False`, runs the try-block (three `_send`s then
the close) with any exception logged and swallowed, then cancels the
draining task if it exists and is not done. -/
def NovaSonicBridge.stop (ok1 ok2 ok3 closeOk : Bool) (b : NovaSonicBridge) : MResult :=
  if !b.is_active then ⟨b, [], false⟩
  else
    let b1 := { b with is_active := false }
    let r1 := NovaSonicBridge._send ok1
      (OutEvent.contentEnd b1.prompt_name b1.audio_content_name) b1
    let r2 := NovaSonicBridge._send ok2 (OutEvent.promptEnd r1.st.prompt_name) r1.st
    let r3 := NovaSonicBridge._send ok3 OutEvent.sessionEnd r2.st
    let closeTrace := if r3.st.streamOpen && closeOk then [Effect.closeStream] else []
    let tryResult : List Effect × NovaSonicBridge :=
      if r1.raised then (r1.trace, r1.st)
      else if r2.raised then (r1.trace ++ r2.trace, r2.st)
      else if r3.raised then (r1.trace ++ r2.trace ++ r3.trace, r3.st)
      else (r1.trace ++ r2.trace ++ r3.trace ++ closeTrace, r3.st)
    let b2 := tryResult.2
    match b2.response_task with
    | some false => ⟨{ b2 with response_task := some true },
        tryResult.1 ++ [Effect.cancelTask], false⟩
    | _ => ⟨b2, tryResult.1, false⟩

/-! ## The draining task (_process_responses, index.py lines 261-307)

The outer receive/parse layers (await_output, receive, utf-8 decode,
json.loads, the `'event' in json_data` check) deliver a stream of parsed
single-key `event` objects; the dispatch on lines 277-298 is embedded below.
An event's decoded payload and the sink callback: the Call Bridge Loop's
sink (`send_to_vonage`, lines 373-377) swallows its own errors, so a sink
invocation is recorded as the list of decoded byte chunks handed to it. -/

/-- A parsed inbound inference event, keyed by its single top-level tag.
`contentStart` carries the optional `role` field; `textOutput` the optional
`content` and `role`; `audioOutput` the optional base64 `content`; every
other tag (contentEnd, promptEnd, sessionEnd, toolUse, ...) falls under
`other`; `emptyEvent` is an `event` object with no keys at all. -/
inductive InEvent where
  | contentStart (role : Option String)
  | textOutput (content role : Option String)
  | audioOutput (content : Option String)
  | other (tag : String)
  | emptyEvent
  deriving DecidableEq

/-- Local state of the draining loop: the `role` variable (line 262,
initially None) and the session's active flag read by the `while` guard. -/
structure DrainState where
  role : Option String
  is_active : Bool
  deriving DecidableEq

/-- One pass of the dispatch (index.py lines 277-298) on a single parsed
event: the new state, the chunks handed to the audio sink, and whether an
exception was raised (only a base64-decode failure can raise here; the
boolean true means it propagates to the loop's outer handler). -/
def processEvent (st : DrainState) (e : InEvent) : DrainState × List (List Nat) × Bool :=
  match e with
  | InEvent.contentStart r => ({ st with role := some (r.getD "") }, [], false)
  | InEvent.textOutput _ _ => (st, [], false)
  | InEvent.audioOutput c =>
    let content := c.getD ""
    if content = "" then (st, [], false)
    else
      match b64decode content with
      | some bs => (st, [bs], false)
      | none => (st, [], true)
  | InEvent.other _ => (st, [], false)
  | InEvent.emptyEvent => (st, [], false)

/-- The draining loop (lines 265-307) run over a finite prefix of parsed
events: the `while self.is_active` guard is checked before each event; an
exception inside the dispatch is caught by the outer handler, logged, and
the `finally` clause sets the active flag to false.  Returns the loop state
after the prefix and the sink invocations in order. -/
def drainLoop : DrainState → List InEvent → DrainState × List (List Nat)
  | st, [] => (st, [])
  | st, e :: es =>
    if st.is_active then
      match processEvent st e with
      | (st1, sinks, false) =>
        let rest := drainLoop st1 es
        (rest.1, sinks ++ rest.2)
      | (st1, sinks, true) => ({ st1 with is_active := false }, sinks)
    else (st, [])

/-! ## Concrete fixtures used in witnesses and concrete evaluations -/

/-- A bridge in the state reached after a fully successful `start()`:
stream open, active, a live draining task, concrete identifiers. -/
def activeBridge : NovaSonicBridge :=
  { streamOpen := true
    is_active := true
    prompt_name := "p"
    content_name := "c"
    audio_content_name := "a"
    audio_chunks_sent := 0
    response_task := some false }

/-- The draining loop's state at entry while the session is active. -/
def drainState0 : DrainState := { role := none, is_active := true }

/-- The 16-byte payload of spec Scenario C. -/
def pcm16 : List Nat := [0, 1, 0, 1, 0, 1, 0, 1, 0, 1, 0, 1, 0, 1, 0, 1]

example : b64encode [0, 1] = "AAE=" := by decide
example : b64encode pcm16 = "AAEAAQABAAEAAQABAAEAAQ==" := by decide
example : b64decode "AAE=" = some [0, 1] := by decide
example : b64decode "AAEAAQABAAEAAQABAAEAAQ==" = some pcm16 := by decide
example : b64encode [77, 97, 110] = "TWFu" := by decide
example : b64decode "TWFu" = some [77, 97, 110] := by decide

/-! ## Helper lemmas -/

/-- `send_audio` on an inactive bridge returns at the `if not self.is_active`
guard: no state change, no stream effect, no exception. -/
theorem send_audio_of_inactive (ok : Bool) (pcm : List Nat) (b : NovaSonicBridge)
    (h : b.is_active = false) :
    NovaSonicBridge.send_audio ok pcm b = ⟨b, [], false⟩ := by
  simp [NovaSonicBridge.send_audio, h]

/-- Whatever the environment does, the state left by `stop()` is inactive. -/
theorem stop_st_inactive (ok1 ok2 ok3 closeOk : Bool) (b : NovaSonicBridge) :
    (NovaSonicBridge.stop ok1 ok2 ok3 closeOk b).st.is_active = false := by
  cases hb : b.is_active with
  | false => simp [NovaSonicBridge.stop, hb]
  | true =>
    cases ht : b.response_task with
    | none => simp [NovaSonicBridge.stop, NovaSonicBridge._send, hb, ht]
    | some d =>
      cases d <;> simp [NovaSonicBridge.stop, NovaSonicBridge._send, hb, ht]

/-- The state left by a failed stream-open inside `start()` is inactive. -/
theorem start_open_failure (failAt : Option Nat) (b : NovaSonicBridge) :
    NovaSonicBridge.start false failAt b = ⟨{ b with is_active := false }, [], true⟩ := rfl

/-! ## Claim theorems -/

/-- Claim C2: for every session, `send_audio` before `start()` has succeeded
(freshly constructed bridge, or bridge left by a failed stream open), or at
any time after `stop()` has been called, sends nothing on the stream, changes
nothing, and raises no exception. -/
theorem send_audio_inactive_is_noop (ok : Bool) (pcm : List Nat) (p c a : String)
    (failAt : Option Nat) (o1 o2 o3 oc : Bool) (b b' : NovaSonicBridge) :
    NovaSonicBridge.send_audio ok pcm (NovaSonicBridge.init p c a)
      = ⟨NovaSonicBridge.init p c a, [], false⟩
  ∧ NovaSonicBridge.send_audio ok pcm (NovaSonicBridge.start false failAt b).st
      = ⟨(NovaSonicBridge.start false failAt b).st, [], false⟩
  ∧ NovaSonicBridge.send_audio ok pcm (NovaSonicBridge.stop o1 o2 o3 oc b').st
      = ⟨(NovaSonicBridge.stop o1 o2 o3 oc b').st, [], false⟩ := by
  refine ⟨send_audio_of_inactive ok pcm _ rfl, send_audio_of_inactive ok pcm _ rfl,
    send_audio_of_inactive ok pcm _ (stop_st_inactive o1 o2 o3 oc b')⟩

/-- Claim C3: a successful `start()` (stream open succeeds, no send attempt
fails) emits exactly six handshake events on the stream, in the fixed order
sessionStart, promptStart, contentStart(system text), textInput, contentEnd,
contentStart(audio input), each carrying the session's own prompt/content
identifiers, and leaves the active flag true. -/
theorem start_success_emits_handshake_in_order (b : NovaSonicBridge) :
    NovaSonicBridge.start true none b =
      ⟨{ b with streamOpen := true, is_active := true, response_task := some false },
       [ Effect.send (OutEvent.sessionStart 1024 (9 / 10) (7 / 10)),
         Effect.send (OutEvent.promptStart b.prompt_name "text/plain"
           novaAudioOutputConfiguration "application/json" [getDateTool]),
         Effect.send (OutEvent.contentStart b.prompt_name b.content_name "TEXT" false "SYSTEM"
           (ContentConfig.textInput "text/plain")),
         Effect.send (OutEvent.textInput b.prompt_name b.content_name SYSTEM_PROMPT),
         Effect.send (OutEvent.contentEnd b.prompt_name b.content_name),
         Effect.send (OutEvent.contentStart b.prompt_name b.audio_content_name "AUDIO" true "USER"
           (ContentConfig.audioInput novaAudioInputConfiguration)) ],
       false⟩ := rfl

/-- Claim C4: on an active session (stream open, active flag set) `send_audio`
emits exactly one `audioInput` event, tagged with the session's own
audio-content identifier, whose `content` is the base64 encoding of exactly
the given bytes; the only state change is the sent-chunk counter. -/
theorem send_audio_active_emits_one_audioInput (pcm : List Nat) (b : NovaSonicBridge)
    (hact : b.is_active = true) (hstream : b.streamOpen = true) :
    NovaSonicBridge.send_audio true pcm b =
      ⟨{ b with audio_chunks_sent := b.audio_chunks_sent + 1 },
       [Effect.send (OutEvent.audioInput b.prompt_name b.audio_content_name (b64encode pcm))],
       false⟩ := by
  simp [NovaSonicBridge.send_audio, NovaSonicBridge._send, hact, hstream]

/-- Witness for C4, spec Scenario C: sending the 16 bytes 00 01 repeated 8
times on an active session emits one audioInput event whose content is the
base64 encoding of exactly those bytes. -/
theorem send_audio_active_emits_one_audioInput_witness :
    activeBridge.is_active = true ∧ activeBridge.streamOpen = true ∧
    NovaSonicBridge.send_audio true pcm16 activeBridge =
      ⟨{ activeBridge with audio_chunks_sent := 1 },
       [Effect.send (OutEvent.audioInput "p" "a" "AAEAAQABAAEAAQABAAEAAQ==")],
       false⟩ :=
  ⟨rfl, rfl, send_audio_active_emits_one_audioInput pcm16 activeBridge rfl rfl⟩

/-- Claim C6: if the underlying stream send inside `send_audio` fails on an
active session, the active flag becomes false, nothing is recorded as sent,
and the exception is re-raised to the caller. -/
theorem send_audio_failure_deactivates_and_raises (pcm : List Nat) (b : NovaSonicBridge)
    (hact : b.is_active = true) (hstream : b.streamOpen = true) :
    (NovaSonicBridge.send_audio false pcm b).raised = true
  ∧ (NovaSonicBridge.send_audio false pcm b).st.is_active = false
  ∧ (NovaSonicBridge.send_audio false pcm b).trace = [] := by
  refine ⟨?_, ?_, ?_⟩ <;> simp [NovaSonicBridge.send_audio, NovaSonicBridge._send, hact, hstream]

/-- Witness for C6 at a concrete active session. -/
theorem send_audio_failure_deactivates_and_raises_witness :
    activeBridge.is_active = true ∧ activeBridge.streamOpen = true ∧
    ((NovaSonicBridge.send_audio false pcm16 activeBridge).raised = true
     ∧ (NovaSonicBridge.send_audio false pcm16 activeBridge).st.is_active = false
     ∧ (NovaSonicBridge.send_audio false pcm16 activeBridge).trace = []) :=
  ⟨rfl, rfl, send_audio_failure_deactivates_and_raises pcm16 activeBridge rfl rfl⟩

/-- Claim C10: each `send_audio` call on an active session increments the
sent-chunk counter by exactly one, whether or not the subsequent stream send
succeeds (the increment happens before `_send`); on an inactive session the
counter is unchanged. -/
theorem send_audio_counter_increment (ok : Bool) (pcm : List Nat) (b : NovaSonicBridge) :
    (NovaSonicBridge.send_audio ok pcm b).st.audio_chunks_sent
      = b.audio_chunks_sent + (if b.is_active then 1 else 0) := by
  cases hb : b.is_active <;> cases hs : b.streamOpen <;> cases ok <;>
    simp [NovaSonicBridge.send_audio, NovaSonicBridge._send, hb, hs]

/-- Claim C5: while the session is active, each inbound `audioOutput` event
whose `content` is a nonempty base64 string causes exactly one sink
invocation with the decoded bytes, and the invocations occur in receive
order; the loop state is unchanged by these events. -/
theorem drain_forwards_audioOutput_in_order (st : DrainState)
    (l : List (String × List Nat)) (hact : st.is_active = true)
    (h : ∀ p ∈ l, p.1 ≠ "" ∧ b64decode p.1 = some p.2) :
    drainLoop st (l.map (fun p => InEvent.audioOutput (some p.1)))
      = (st, l.map (fun p => p.2)) := by
  induction l with
  | nil => simp [drainLoop]
  | cons hd tl ih =>
    obtain ⟨hne, hdec⟩ := h hd (List.mem_cons_self _ _)
    have ihx := ih (fun p hp => h p (List.mem_cons_of_mem _ hp))
    simp [drainLoop, processEvent, hact, hne, hdec, ihx]

/-- Witness for C5, spec Scenario D: one audioOutput event with base64
payload "AAE=" causes exactly one sink invocation with bytes 00 01. -/
theorem drain_forwards_audioOutput_in_order_witness :
    drainState0.is_active = true
  ∧ (∀ p ∈ [("AAE=", [0, 1])], p.1 ≠ "" ∧ b64decode p.1 = some p.2)
  ∧ drainLoop drainState0 [InEvent.audioOutput (some "AAE=")] = (drainState0, [[0, 1]]) :=
  ⟨rfl, by decide,
    drain_forwards_audioOutput_in_order drainState0 [("AAE=", [0, 1])] rfl (by decide)⟩

/-- Claim C9: an inference event whose single top-level tag is none of
contentStart, textOutput, audioOutput (including an empty event object) is
dispatched to no branch: no exception, zero sink invocations, loop state --
in particular the active flag -- unchanged; at loop level the event is
simply skipped. -/
theorem drain_ignores_unknown_events (st : DrainState) (tag : String) (es : List InEvent) :
    processEvent st (InEvent.other tag) = (st, [], false)
  ∧ processEvent st InEvent.emptyEvent = (st, [], false)
  ∧ (st.is_active = true →
       drainLoop st (InEvent.other tag :: es) = drainLoop st es
     ∧ drainLoop st (InEvent.emptyEvent :: es) = drainLoop st es) := by
  refine ⟨rfl, rfl, fun h => ⟨?_, ?_⟩⟩ <;> simp [drainLoop, processEvent, h]

/-- Witness for C9: skipping a `contentEnd`-tagged event on an active loop. -/
theorem drain_ignores_unknown_events_witness :
    drainState0.is_active = true
  ∧ drainLoop drainState0 [InEvent.other "contentEnd"] = drainLoop drainState0 [] :=
  ⟨rfl, ((drain_ignores_unknown_events drainState0 "contentEnd" []).2.2 rfl).1⟩

/-- Claim C7: if the stream-open call inside `start()` fails, `start()`
raises, no handshake event is sent and the session is inactive; if instead
any of the six handshake sends fails, `start()` raises and the session is
inactive when it returns -- it never reaches the active, ready state. -/
theorem start_failure_contract (b : NovaSonicBridge) (failAt : Option Nat) (k : Nat)
    (hk : k < 6) :
    NovaSonicBridge.start false failAt b = ⟨{ b with is_active := false }, [], true⟩
  ∧ (NovaSonicBridge.start true (some k) b).raised = true
  ∧ (NovaSonicBridge.start true (some k) b).st.is_active = false := by
  refine ⟨start_open_failure failAt b, ?_⟩
  interval_cases k <;>
    refine ⟨?_, ?_⟩ <;>
      simp [NovaSonicBridge.start, sendSeq, NovaSonicBridge._send, handshakeEvents]

/-- Witness for C7: open failure and a failure at handshake step 3, both on a
concrete fresh bridge. -/
theorem start_failure_contract_witness :
    (3 < 6)
  ∧ (NovaSonicBridge.start false none (NovaSonicBridge.init "p" "c" "a")
       = ⟨{ NovaSonicBridge.init "p" "c" "a" with is_active := false }, [], true⟩
     ∧ (NovaSonicBridge.start true (some 3) (NovaSonicBridge.init "p" "c" "a")).raised = true
     ∧ (NovaSonicBridge.start true (some 3)
          (NovaSonicBridge.init "p" "c" "a")).st.is_active = false) :=
  ⟨by decide, start_failure_contract (NovaSonicBridge.init "p" "c" "a") none 3 (by decide)⟩

/-- Claim C1 (code evaluated at the failing input): `stop()` on an active
session with an open stream and a live draining task marks the session
inactive and never raises, but sends NOTHING on the stream: because
`is_active` is cleared at index.py line 313 before the three `_send` calls,
and `_send` line 109 guards on `self.stream and self.is_active`, the
contentEnd / promptEnd / sessionEnd shutdown events are all silently
dropped; only the stream close and the task cancellation happen. -/
theorem stop_sends_no_shutdown_events :
    NovaSonicBridge.stop true true true true activeBridge =
      ⟨{ activeBridge with is_active := false, response_task := some true },
       [Effect.closeStream, Effect.cancelTask], false⟩ := rfl

/-- Claim C8 (code evaluated at the failing input): the idempotence of
`stop()` holds -- the second call returns with no effect and the draining
task is cancelled exactly once -- but the two calls together put zero
shutdown messages on the stream, not one shutdown message sequence, because
of the same inactive-guard slip as in C1. -/
theorem stop_twice_idempotent_but_no_messages :
    ((NovaSonicBridge.stop true true true true activeBridge).trace.countP
        (fun e => isSendEffect e) = 0)
  ∧ (NovaSonicBridge.stop true true true true
        (NovaSonicBridge.stop true true true true activeBridge).st
      = ⟨(NovaSonicBridge.stop true true true true activeBridge).st, [], false⟩)
  ∧ ((NovaSonicBridge.stop true true true true activeBridge).trace.count
        Effect.cancelTask = 1) := by decide

/-! ## Sanity: the embedded encoder/decoder pair is a genuine base64
round-trip on byte lists, so `b64encode` in `send_audio` and `b64decode` in
the draining task mean standard base64. -/

theorem b64CharVal_b64Char_of_lt : ∀ n, n < 64 → b64CharVal (b64Char n) = some n := by decide

theorem b64Char_lt_ne_pad : ∀ n, n < 64 → b64Char n ≠ '=' := by decide

theorem b64Char_ne_pad (n : Nat) : b64Char n ≠ '=' := by
  by_cases h : n < 64
  · exact b64Char_lt_ne_pad n h
  · unfold b64Char
    rw [List.getD_eq_default]
    · decide
    · have hl : b64Chars.length = 64 := by decide
      omega

theorem b64decodeChars_b64encode (l : List Nat) (h : ∀ x ∈ l, x < 256) :
    b64decodeChars (b64encode l).data = some l := by
  induction l using b64encode.induct with
  | case1 => decide
  | case2 a =>
    have ha : a < 256 := h a (by simp)
    have h1 : b64CharVal (b64Char (a / 4)) = some (a / 4) :=
      b64CharVal_b64Char_of_lt _ (by omega)
    have h2 : b64CharVal (b64Char (a % 4 * 16)) = some (a % 4 * 16) :=
      b64CharVal_b64Char_of_lt _ (by omega)
    simp [b64encode, b64decodeChars, h1, h2]
    omega
  | case3 a b =>
    have ha : a < 256 := h a (by simp)
    have hb : b < 256 := h b (by simp)
    have h1 : b64CharVal (b64Char (a / 4)) = some (a / 4) :=
      b64CharVal_b64Char_of_lt _ (by omega)
    have h2 : b64CharVal (b64Char (a % 4 * 16 + b / 16)) = some (a % 4 * 16 + b / 16) :=
      b64CharVal_b64Char_of_lt _ (by omega)
    have h3 : b64CharVal (b64Char (b % 16 * 4)) = some (b % 16 * 4) :=
      b64CharVal_b64Char_of_lt _ (by omega)
    simp [b64encode, b64decodeChars, h1, h2, h3, b64Char_ne_pad]
    omega
  | case4 a b c rest ih =>
    have ha : a < 256 := h a (by simp)
    have hb : b < 256 := h b (by simp)
    have hc : c < 256 := h c (by simp)
    have h1 : b64CharVal (b64Char (a / 4)) = some (a / 4) :=
      b64CharVal_b64Char_of_lt _ (by omega)
    have h2 : b64CharVal (b64Char (a % 4 * 16 + b / 16)) = some (a % 4 * 16 + b / 16) :=
      b64CharVal_b64Char_of_lt _ (by omega)
    have h3 : b64CharVal (b64Char (b % 16 * 4 + c / 64)) = some (b % 16 * 4 + c / 64) :=
      b64CharVal_b64Char_of_lt _ (by omega)
    have h4 : b64CharVal (b64Char (c % 64)) = some (c % 64) :=
      b64CharVal_b64Char_of_lt _ (by omega)
    have ihx := ih (fun x hx => h x (by simp [hx]))
    simp [b64encode, b64decodeChars, h1, h2, h3, h4, b64Char_ne_pad, String.data_append, ihx]
    refine ⟨by omega, by omega, by omega⟩

theorem b64decode_b64encode (l : List Nat) (h : ∀ x ∈ l, x < 256) :
    b64decode (b64encode l) = some l := b64decodeChars_b64encode l h
